import Mathlib

/-!
Verification of the pagination and response-handling core of a Go client
library for a CDN/DNS REST API (`bunnynet-go`).

The Go source is shallowly embedded: Go `int` is modelled as `Int`
(Go `/` and `%` on ints truncate toward zero, modelled by `Int.tdiv` /
`Int.tmod`), Go slices as `List`, Go `error` values as `Option`/`Except`,
and the stateful `PageIterator` methods as pure state-passing functions.
JSON (de)serialization and the HTTP transport are external collaborators;
their outcomes enter the model as explicit parameters (e.g. whether a body
decoded, and to what value).
-/

namespace BunnyNet

/-! ## Pagination value types (`common/pagination.go`) -/

/-- Constant `DefaultPage` from `common/pagination.go`. -/
def DefaultPage : Int := 1

/-- Constant `DefaultPerPage` from `common/pagination.go`. -/
def DefaultPerPage : Int := 100

/-- Constant `MaxPerPage` from `common/pagination.go`. -/
def MaxPerPage : Int := 1000

/-- Struct `Pagination`: request-side paging cursor. -/
structure Pagination where
  Page : Int
  PerPage : Int
deriving Repr, DecidableEq

/-- Constructor `NewPagination()`: pagination with default values. -/
def NewPagination : Pagination :=
  { Page := DefaultPage, PerPage := DefaultPerPage }

/-- Method `(*Pagination).WithPage`: clamps `page < 1` to `DefaultPage`, then stores it. -/
def Pagination.WithPage (p : Pagination) (page : Int) : Pagination :=
  { p with Page := if page < 1 then DefaultPage else page }

/-- Method `(*Pagination).WithPerPage`: clamps `perPage < 1` to `DefaultPerPage`,
then clamps anything above `MaxPerPage` down to `MaxPerPage`, then stores it. -/
def Pagination.WithPerPage (p : Pagination) (perPage : Int) : Pagination :=
  let pp1 := if perPage < 1 then DefaultPerPage else perPage
  let pp2 := if pp1 > MaxPerPage then MaxPerPage else pp1
  { p with PerPage := pp2 }

/-- Struct `PageInfo`: response-side pagination information. -/
structure PageInfo where
  CurrentPage : Int
  TotalItems : Int
  HasMoreItems : Bool
deriving Repr, DecidableEq

/-- Method `(*PageInfo).TotalPages`: Go integer division (truncated, `Int.tdiv`)
plus one when the remainder (`Int.tmod`) is positive; `0` for `perPage <= 0`. -/
def PageInfo.TotalPages (p : PageInfo) (perPage : Int) : Int :=
  if perPage ≤ 0 then 0
  else
    let totalPages := p.TotalItems.tdiv perPage
    if p.TotalItems.tmod perPage > 0 then totalPages + 1 else totalPages

/-- Struct `PaginatedResponse[T]` from `common/types.go`. -/
structure PaginatedResponse (T : Type) where
  Items : List T
  CurrentPage : Int
  TotalItems : Int
  HasMoreItems : Bool
deriving Repr, DecidableEq

/-! ## Page iterator (`common/pagination.go`)

`PageIterator[T]` holds a fetch closure, a mutable `Pagination` cursor, the
last response and the last error. Go's `error` results of the fetch function
are modelled by `Except E`, with `E` the type of error values. -/

/-- Struct `PageIterator[T]`: the injected fetch function plus mutable state. -/
structure PageIterator (T E : Type) where
  client : Int → Int → Except E (PaginatedResponse T)
  pagination : Pagination
  currentResponse : Option (PaginatedResponse T)
  err : Option E

/-- Constructor `NewPageIterator`: builds the cursor by clamping `page`/`perPage` through
`WithPage`/`WithPerPage` on a default `Pagination`. -/
def NewPageIterator {T E : Type} (client : Int → Int → Except E (PaginatedResponse T))
    (page perPage : Int) : PageIterator T E :=
  { client := client
    pagination := (NewPagination.WithPage page).WithPerPage perPage
    currentResponse := none
    err := none }

/-- Method `(*PageIterator).Next`, as a pure state transformer returning the updated
iterator together with the Go function's boolean result. -/
def PageIterator.Next {T E : Type} (i : PageIterator T E) : PageIterator T E × Bool :=
  match i.err with
  | some _ => (i, false)
  | none =>
    if (match i.currentResponse with
        | some r => !r.HasMoreItems
        | none => false) then
      (i, false)
    else
      match i.client i.pagination.Page i.pagination.PerPage with
      | Except.error e => ({ i with err := some e }, false)
      | Except.ok response =>
        ({ i with
            currentResponse := some response
            pagination := { i.pagination with Page := i.pagination.Page + 1 } },
         decide (0 < response.Items.length))

/-- Method `(*PageIterator).Items`: the current page's items (Go returns a nil slice
when no page has been fetched, modelled as `[]`). -/
def PageIterator.Items {T E : Type} (i : PageIterator T E) : List T :=
  match i.currentResponse with
  | none => []
  | some r => r.Items

/-- Method `(*PageIterator).Error`: the stored error, if any. -/
def PageIterator.Error {T E : Type} (i : PageIterator T E) : Option E :=
  i.err

/-- Method `(*PageIterator).Reset`: cursor back to `DefaultPage`, response and error
cleared. -/
def PageIterator.Reset {T E : Type} (i : PageIterator T E) : PageIterator T E :=
  { i with
      pagination := { i.pagination with Page := DefaultPage }
      currentResponse := none
      err := none }

/-- Iterated application of `Next`, discarding the boolean results: the state
after `n` further `Next()` calls. -/
def PageIterator.nextN {T E : Type} : Nat → PageIterator T E → PageIterator T E
  | 0, i => i
  | n + 1, i => PageIterator.nextN n (i.Next).1

/-- The `for i.Next() { allItems = append(allItems, i.Items()...) }` loop of
`AllItems`, with explicit fuel bounding the number of `Next()` calls (the Go
loop is unbounded); `none` means the fuel ran out before the loop finished. -/
def PageIterator.collectLoop {T E : Type} :
    Nat → PageIterator T E → List T → Option (PageIterator T E × List T)
  | 0, _, _ => none
  | fuel + 1, i, acc =>
    match i.Next with
    | (i2, true) => PageIterator.collectLoop fuel i2 (acc ++ i2.Items)
    | (i2, false) => some (i2, acc)

/-- Method `(*PageIterator).AllItems`: `Reset()`, run the collection loop, then
return `(nil, err)` when an error was stored and `(allItems, nil)` otherwise.
The first component models Go's returned slice (`[]` standing for nil). -/
def PageIterator.AllItems {T E : Type} (fuel : Nat) (i : PageIterator T E) :
    Option (List T × Option E) :=
  (PageIterator.collectLoop fuel i.Reset []).map fun p =>
    match p.1.Error with
    | some e => ([], some e)
    | none => (p.2, none)

/-! ### Concrete fetch functions and iterators used to exercise the model -/

/-- Single-page fetch function: always returns one final page `[7]`. -/
def onePageResp : PaginatedResponse Nat :=
  { Items := [7], CurrentPage := 1, TotalItems := 1, HasMoreItems := false }

/-- Iterator over `onePageResp` in its fresh state. -/
def onePageIter : PageIterator Nat Unit :=
  { client := fun _ _ => Except.ok onePageResp
    pagination := { Page := 1, PerPage := 100 }
    currentResponse := none
    err := none }

/-- An iterator already frozen in the failed state with stored error `"boom"`. -/
def failedIter : PageIterator Nat String :=
  { client := fun _ _ => Except.error "down"
    pagination := { Page := 2, PerPage := 50 }
    currentResponse := none
    err := some "boom" }

/-- Three-page fetch function of the spec's termination example: pages
`[1,2]` / `[3,4]` / `[5]` at page size 2, `hasMoreItems` true, true, false. -/
def threePageClient : Int → Int → Except Unit (PaginatedResponse Nat) := fun page _ =>
  if page = 1 then Except.ok { Items := [1, 2], CurrentPage := 1, TotalItems := 5, HasMoreItems := true }
  else if page = 2 then Except.ok { Items := [3, 4], CurrentPage := 2, TotalItems := 5, HasMoreItems := true }
  else if page = 3 then Except.ok { Items := [5], CurrentPage := 3, TotalItems := 5, HasMoreItems := false }
  else Except.error ()

/-- Fresh iterator over `threePageClient` at page size 2. -/
def threePageIter : PageIterator Nat Unit :=
  NewPageIterator threePageClient 1 2

/-- Fetch function whose second page fails: used to exercise the
partial-result discard of `AllItems`. -/
def failSecondClient : Int → Int → Except String (PaginatedResponse Nat) := fun page _ =>
  if page = 1 then Except.ok { Items := [9], CurrentPage := 1, TotalItems := 2, HasMoreItems := true }
  else Except.error "boom"

/-- Fresh iterator over `failSecondClient`. -/
def failSecondIter : PageIterator Nat String :=
  NewPageIterator failSecondClient 1 100

/-! ## Error model (`common`) and request/response pipeline (`internal`)

JSON decoding and the HTTP transport are external library calls; their
outcomes enter the model as explicit data (status code, whether the body
read succeeded, what each decode attempt produced). -/

/-- Fields of the server error body that JSON decoding can fill:
`ErrorKey`, `Field`, `Message` (`StatusCode` is tagged `json:"-"` and is
never read from the body). -/
structure ErrorBody where
  ErrorKey : String
  Field : String
  Message : String
deriving Repr, DecidableEq

/-- Error values the client surfaces, one constructor per distinct Go
construction: `*ErrorResponse` (decoded server error), `*ClientError` (built
by `NewClientError`, with a flag for a wrapped cause), and the bare formatted
error `fmt.Errorf("bunnynet API error: status code %d", ...)` built by the
fallback branch of `ParseErrorResponse` — a value of neither of the two
struct types, carrying only the status code. -/
inductive BunnyError where
  | errorResponse (ErrorKey Field Message : String) (StatusCode : Int)
  | clientError (Message : String) (hasCause : Bool)
  | statusOnlyError (StatusCode : Int)
deriving Repr, DecidableEq

/-- Recognizes the `*ClientError` Go type among surfaced errors. -/
def BunnyError.isClientError : BunnyError → Bool
  | .clientError _ _ => true
  | _ => false

/-- The HTTP status code an error reports, when it reports one. -/
def BunnyError.reportedStatus : BunnyError → Option Int
  | .errorResponse _ _ _ s => some s
  | .clientError _ _ => none
  | .statusOnlyError s => some s

/-- ParseErrorResponse from the `common` package: nil for 2xx statuses;
otherwise decode the body into an `ErrorResponse` carrying the transport
status code, and when that decode fails (`decodedErrorBody = none`) fall back
to the formatted status-code-only error. -/
def ParseErrorResponse (statusCode : Int) (decodedErrorBody : Option ErrorBody) :
    Option BunnyError :=
  if 200 ≤ statusCode ∧ statusCode < 300 then none
  else
    match decodedErrorBody with
    | some b => some (.errorResponse b.ErrorKey b.Field b.Message statusCode)
    | none => some (.statusOnlyError statusCode)

/-- Outcome-level model of a Go `*http.Response` as the decoders observe it:
status code, whether reading the body succeeds, the result of JSON-decoding
the body into the target type (`none` = parse failure), and the result of
decoding the body as an `ErrorResponse`. -/
structure HttpResponse (V : Type) where
  StatusCode : Int
  readOk : Bool
  decodedBody : Option V
  decodedErrorBody : Option ErrorBody
deriving Repr, DecidableEq

/-- ParseResponse from the `internal` package: 204 short-circuit, nil-target
short-circuit, error short-circuit for status ≥ 400 via `ParseErrorResponse`,
then read and JSON-decode the body. `Except.ok (some v)` is a decoded value,
`Except.ok none` a short-circuit that decoded nothing. -/
def ParseResponse {V : Type} (resp : HttpResponse V) (hasTarget : Bool) :
    Except BunnyError (Option V) :=
  if resp.StatusCode = 204 then Except.ok none
  else if !hasTarget then Except.ok none
  else if 400 ≤ resp.StatusCode then
    match ParseErrorResponse resp.StatusCode resp.decodedErrorBody with
    | some e => Except.error e
    | none => Except.ok none
  else if !resp.readOk then Except.error (.clientError "failed to read response body" true)
  else
    match resp.decodedBody with
    | some v => Except.ok (some v)
    | none => Except.error (.clientError "failed to parse response body" true)

/-- ParsePaginatedResponse from the `internal` package: reads the full body
and JSON-decodes it directly into `PaginatedResponse[T]` (here the target
type `V`), with no status-based short-circuit of any kind. -/
def ParsePaginatedResponse {V : Type} (resp : HttpResponse V) : Except BunnyError V :=
  if !resp.readOk then Except.error (.clientError "failed to read response body" true)
  else
    match resp.decodedBody with
    | some v => Except.ok v
    | none => Except.error (.clientError "failed to parse paginated response" true)

/-- DoRequest from the `internal` package: a transport failure becomes a
wrapped client error with no response; a response with status ≥ 400 is
returned together with its parsed error; any other response is returned with
no error. -/
def DoRequest {V : Type} (doResult : Except String (HttpResponse V)) :
    Option (HttpResponse V) × Option BunnyError :=
  match doResult with
  | Except.error _ => (none, some (.clientError "failed to send request" true))
  | Except.ok resp =>
    if 400 ≤ resp.StatusCode then
      (some resp, ParseErrorResponse resp.StatusCode resp.decodedErrorBody)
    else (some resp, none)

/-- Observable effect of `NewRequest` on the built request: whether a JSON
body is attached and which of the four headers are set, with their values. -/
structure Request where
  hasJsonBody : Bool
  accept : Option String
  contentType : Option String
  accessKey : Option String
  userAgent : Option String
deriving Repr, DecidableEq

/-- NewRequest from the `internal` package. Base-URL parsing, JSON body
encoding and `http.NewRequest` are library calls whose success enters as the
`urlParseOk` / `bodyEncodeOk` / `newReqOk` flags; each failure becomes a
wrapped client error. On success the body is attached (JSON-encoded) exactly
when it is non-nil and the method is POST, PUT or PATCH; `Accept` is always
set; `Content-Type` exactly when the body was attached; `AccessKey` and
`User-Agent` exactly when non-empty. -/
def NewRequest (method : String) (urlParseOk : Bool) (hasBody : Bool)
    (bodyEncodeOk : Bool) (newReqOk : Bool) (apiKey userAgent : String) :
    Except BunnyError Request :=
  if !urlParseOk then Except.error (.clientError "failed to parse base URL" true)
  else
    let attachBody := hasBody && (method == "POST" || method == "PUT" || method == "PATCH")
    if attachBody && !bodyEncodeOk then
      Except.error (.clientError "failed to encode request body" true)
    else if !newReqOk then Except.error (.clientError "failed to create request" true)
    else Except.ok {
      hasJsonBody := attachBody
      accept := some "application/json"
      contentType := if attachBody then some "application/json" else none
      accessKey := if apiKey ≠ "" then some apiKey else none
      userAgent := if userAgent ≠ "" then some userAgent else none }

/-- Concrete response used as a witness: status 500, readable body that
decodes as a `Nat` but not as an `ErrorResponse`. -/
def resp500nat : HttpResponse Nat :=
  { StatusCode := 500, readOk := true, decodedBody := some 3, decodedErrorBody := none }

/-- Concrete request produced by a successful POST `NewRequest` call. -/
def reqPost : Request :=
  { hasJsonBody := true
    accept := some "application/json"
    contentType := some "application/json"
    accessKey := some "key1"
    userAgent := some "agent1" }

/-- Concrete request produced by a successful GET `NewRequest` call that was
handed a non-nil body: no body attached, no `Content-Type`. -/
def reqGet : Request :=
  { hasJsonBody := false
    accept := some "application/json"
    contentType := none
    accessKey := some "key1"
    userAgent := some "agent1" }

end BunnyNet

namespace BunnyNet

/-! ## Claims about the pagination value types -/

/-- C5: `WithPage` clamps every requested `page < 1` to 1 and stores in-range
values unchanged; `WithPerPage` clamps every requested `perPage < 1` to 100,
every `perPage > 1000` to 1000, and stores in-range values unchanged. -/
theorem withPage_withPerPage_clamping (p : Pagination) (page perPage : Int) :
    (p.WithPage page).Page = (if page < 1 then 1 else page) ∧
    (p.WithPerPage perPage).PerPage =
      (if perPage < 1 then 100 else if perPage > 1000 then 1000 else perPage) := by
  refine ⟨rfl, ?_⟩
  unfold Pagination.WithPerPage DefaultPerPage MaxPerPage
  by_cases h1 : perPage < 1
  · simp [h1]
  · by_cases h2 : perPage > 1000
    · simp [h1, h2]
    · simp [h1, h2]

/-- C6: for `TotalItems ≥ 0` and `perPage > 0`, `TotalPages perPage` is the
mathematical ceiling of `TotalItems / perPage`; for `perPage ≤ 0` it is the
sentinel 0. -/
theorem totalPages_eq_ceil (p : PageInfo) (perPage : Int) :
    (0 ≤ p.TotalItems → 0 < perPage →
      p.TotalPages perPage = ⌈(p.TotalItems : ℚ) / (perPage : ℚ)⌉) ∧
    (perPage ≤ 0 → p.TotalPages perPage = 0) := by
  constructor
  · intro ht hk
    unfold PageInfo.TotalPages
    rw [if_neg (not_le.mpr hk)]
    simp only [Int.tdiv_eq_ediv ht hk.le, Int.tmod_eq_emod ht hk.le]
    have hkQ : (0 : ℚ) < (perPage : ℚ) := by exact_mod_cast hk
    have heq : perPage * (p.TotalItems / perPage) + p.TotalItems % perPage = p.TotalItems :=
      Int.ediv_add_emod _ _
    have hrk : p.TotalItems % perPage < perPage := Int.emod_lt_of_pos _ hk
    have hr0 : 0 ≤ p.TotalItems % perPage := Int.emod_nonneg _ hk.ne'
    by_cases hr : p.TotalItems % perPage > 0
    · rw [if_pos hr]
      symm
      rw [Int.ceil_eq_iff]
      constructor
      · push_cast
        have hlt : (p.TotalItems / perPage) * perPage < p.TotalItems := by nlinarith [heq]
        have hq : ((p.TotalItems / perPage : Int) : ℚ) < (p.TotalItems : ℚ) / (perPage : ℚ) := by
          rw [lt_div_iff₀ hkQ]
          exact_mod_cast hlt
        linarith
      · push_cast
        rw [div_le_iff₀ hkQ]
        have : p.TotalItems ≤ (p.TotalItems / perPage + 1) * perPage := by nlinarith [heq]
        exact_mod_cast this
    · rw [if_neg hr]
      have hr0' : p.TotalItems % perPage = 0 := le_antisymm (not_lt.mp hr) hr0
      have hdvd : perPage * (p.TotalItems / perPage) = p.TotalItems := by
        have := heq
        rw [hr0'] at this
        linarith
      have : ((p.TotalItems : ℚ)) / (perPage : ℚ) = ((p.TotalItems / perPage : Int) : ℚ) := by
        rw [eq_comm, eq_div_iff hkQ.ne']
        have hdvd2 : (p.TotalItems / perPage) * perPage = p.TotalItems := by
          rw [mul_comm]
          exact hdvd
        exact_mod_cast hdvd2
      rw [this, Int.ceil_intCast]
  · intro hk
    unfold PageInfo.TotalPages
    rw [if_pos hk]

/-- Helper: in the failed state (`err = some e`) `Next` leaves the iterator
unchanged and returns false, whatever the fetch function would do. -/
theorem PageIterator.next_of_err {T E : Type} (i : PageIterator T E) (e : E)
    (h : i.err = some e) : i.Next = (i, false) := by
  unfold PageIterator.Next
  rw [h]

/-- Helper: with no stored error and no already-fetched page blocking (every
stored page still has more items), a successful fetch stores the response,
bumps the page cursor by one, and reports whether the page is non-empty. -/
theorem PageIterator.next_of_ok {T E : Type} (i : PageIterator T E) (r : PaginatedResponse T)
    (h1 : i.err = none)
    (h2 : ∀ r₀, i.currentResponse = some r₀ → r₀.HasMoreItems = true)
    (h3 : i.client i.pagination.Page i.pagination.PerPage = Except.ok r) :
    i.Next = ({ i with
        currentResponse := some r
        pagination := { i.pagination with Page := i.pagination.Page + 1 } },
      decide (0 < r.Items.length)) := by
  have hcond : (match i.currentResponse with
      | some r₀ => !r₀.HasMoreItems
      | none => false) = false := by
    cases hcr : i.currentResponse with
    | none => rfl
    | some r₀ => simp [h2 r₀ hcr]
  unfold PageIterator.Next
  rw [h1]
  simp only [hcond, Bool.false_eq_true, if_false, h3]

/-- Helper: `Next` either leaves the cursor alone or advances `Page` by one,
and never touches `PerPage`. -/
theorem PageIterator.next_pagination_cases {T E : Type} (i : PageIterator T E) :
    (i.Next).1.pagination = i.pagination ∨
    (i.Next).1.pagination = { i.pagination with Page := i.pagination.Page + 1 } := by
  unfold PageIterator.Next
  cases i.err with
  | some e => exact Or.inl rfl
  | none =>
    by_cases hc : (match i.currentResponse with
        | some r => !r.HasMoreItems
        | none => false) = true
    · rw [if_pos hc]
      exact Or.inl rfl
    · rw [if_neg hc]
      cases i.client i.pagination.Page i.pagination.PerPage with
      | error e => exact Or.inl rfl
      | ok response => exact Or.inr rfl

/-- Witness for C6 at the spec's own examples: 25 items at 5 per page give 5
pages, 25 items at 10 per page give 3 pages, and `perPage = 0` gives 0. -/
theorem totalPages_eq_ceil_witness :
    (PageInfo.mk 1 25 true).TotalPages 5 = ⌈((25 : Int) : ℚ) / ((5 : Int) : ℚ)⌉ ∧
    (PageInfo.mk 1 25 true).TotalPages 10 = ⌈((25 : Int) : ℚ) / ((10 : Int) : ℚ)⌉ ∧
    (PageInfo.mk 1 25 true).TotalPages 0 = 0 ∧
    (PageInfo.mk 1 25 true).TotalPages 5 = 5 ∧
    (PageInfo.mk 1 25 true).TotalPages 10 = 3 := by
  refine ⟨(totalPages_eq_ceil (PageInfo.mk 1 25 true) 5).1 (by decide) (by decide),
          (totalPages_eq_ceil (PageInfo.mk 1 25 true) 10).1 (by decide) (by decide),
          (totalPages_eq_ceil (PageInfo.mk 1 25 true) 0).2 (by decide), by decide, by decide⟩

/-- C1: in any non-terminal state (no stored error, no stored final page), a
`Next()` whose fetch succeeds with response `r` stores `r` as the current
response, increments the page cursor by exactly 1 (whatever `r.HasMoreItems`
is), and returns true if and only if `r` has more than zero items. -/
theorem next_success_behavior {T E : Type} (i : PageIterator T E) (r : PaginatedResponse T)
    (h1 : i.err = none)
    (h2 : ∀ r₀, i.currentResponse = some r₀ → r₀.HasMoreItems = true)
    (h3 : i.client i.pagination.Page i.pagination.PerPage = Except.ok r) :
    i.Next = ({ i with
        currentResponse := some r
        pagination := { i.pagination with Page := i.pagination.Page + 1 } },
      decide (0 < r.Items.length)) :=
  PageIterator.next_of_ok i r h1 h2 h3

/-- Witness for C1: a fresh iterator whose fetch returns the one-element page
`[7]` with `hasMoreItems = false` still advances its cursor from 1 to 2,
stores the page, and returns true. -/
theorem next_success_behavior_witness :
    onePageIter.Next = ({ onePageIter with
        currentResponse := some onePageResp
        pagination := { Page := 2, PerPage := 100 } }, true) := by
  have h := next_success_behavior onePageIter onePageResp rfl
    (by intro r₀ hr; simp [onePageIter] at hr) rfl
  simpa [onePageIter, onePageResp] using h

/-- C2: an iterator in the failed state returns false from `Next()` without
invoking the fetch function (the result is the same for every fetch function),
keeps its state unchanged across any number of further `Next()` calls, keeps
reporting the stored error through `Error()`, and only `Reset()` clears it. -/
theorem failed_iterator_freezes {T E : Type} (i : PageIterator T E) (e : E)
    (h : i.err = some e) :
    i.Next = (i, false) ∧
    (∀ c, ({ i with client := c } : PageIterator T E).Next = ({ i with client := c }, false)) ∧
    i.Error = some e ∧
    (∀ n, i.nextN n = i) ∧
    i.Reset.err = none := by
  have hnext : i.Next = (i, false) := PageIterator.next_of_err i e h
  refine ⟨hnext, ?_, h, ?_, rfl⟩
  · intro c
    exact PageIterator.next_of_err _ e h
  · intro n
    induction n with
    | zero => rfl
    | succ n ih =>
      have hfst : (i.Next).1 = i := by rw [hnext]
      calc PageIterator.nextN (n + 1) i = PageIterator.nextN n (i.Next).1 := rfl
        _ = PageIterator.nextN n i := by rw [hfst]
        _ = i := ih

/-- Witness for C2: a concrete iterator frozen with stored error `"boom"`
short-circuits `Next()`, stays unchanged over three further calls, still
reports the error, and loses it on `Reset()`. -/
theorem failed_iterator_freezes_witness :
    failedIter.Next = (failedIter, false) ∧
    failedIter.Error = some "boom" ∧
    failedIter.nextN 3 = failedIter ∧
    failedIter.Reset.err = none := by
  have h := failed_iterator_freezes failedIter "boom" rfl
  exact ⟨h.1, h.2.2.1, h.2.2.2.1 3, h.2.2.2.2⟩

/-- C3: over the three-page sequence `[1,2] / [3,4] / [5]` at page size 2,
`Next()` returns true, true, true, then false; `Error()` stays `none` after
every call; and `AllItems` on a fresh iterator returns the 5 items in page
order with no error. -/
theorem three_page_iteration_run :
    (threePageIter.Next).2 = true ∧
    (threePageIter.Next).1.Error = none ∧
    ((threePageIter.Next).1.Next).2 = true ∧
    ((threePageIter.Next).1.Next).1.Error = none ∧
    (((threePageIter.Next).1.Next).1.Next).2 = true ∧
    (((threePageIter.Next).1.Next).1.Next).1.Error = none ∧
    ((((threePageIter.Next).1.Next).1.Next).1.Next).2 = false ∧
    ((((threePageIter.Next).1.Next).1.Next).1.Next).1.Error = none ∧
    threePageIter.AllItems 10 = some ([1, 2, 3, 4, 5], none) := by
  decide

/-- C4: `AllItems` starts from the reset iterator (running it on `i` and on
`i.Reset` is the same), and when the collection loop finishes it returns the
accumulated items exactly when no error is stored, and `([], the error)` —
discarding every partial result — when one is. -/
theorem allItems_reset_start_error_discard {T E : Type} (fuel : Nat) (i : PageIterator T E) :
    i.AllItems fuel = (i.Reset).AllItems fuel ∧
    (∀ i2 acc, PageIterator.collectLoop fuel i.Reset [] = some (i2, acc) →
      (i2.err = none → i.AllItems fuel = some (acc, none)) ∧
      (∀ e, i2.err = some e → i.AllItems fuel = some ([], some e))) := by
  constructor
  · rfl
  · intro i2 acc hloop
    constructor
    · intro he
      unfold PageIterator.AllItems
      rw [hloop]
      simp [PageIterator.Error, he]
    · intro e he
      unfold PageIterator.AllItems
      rw [hloop]
      simp [PageIterator.Error, he]

/-- Witness for C4: with a fetch that succeeds on page 1 with `[9]` and fails
on page 2 with `"boom"`, `AllItems` discards the already-collected `[9]` and
returns `([], some "boom")`. -/
theorem allItems_reset_start_error_discard_witness :
    failSecondIter.AllItems 5 = some ([], some "boom") := by
  have h := (allItems_reset_start_error_discard 5 failSecondIter).2
    { client := failSecondClient
      pagination := { Page := 2, PerPage := 100 }
      currentResponse := some { Items := [9], CurrentPage := 1, TotalItems := 2, HasMoreItems := true }
      err := some "boom" } [9] rfl
  exact h.2 "boom" rfl

/-- C10: construction clamps the cursor into `Page ≥ 1`, `1 ≤ PerPage ≤ 1000`;
`Next()` preserves `Page ≥ 1` and never modifies `PerPage`; `Reset()` sets
`Page` to 1 and never modifies `PerPage`. -/
theorem iterator_pagination_invariant {T E : Type}
    (client : Int → Int → Except E (PaginatedResponse T)) (page perPage : Int)
    (i : PageIterator T E) :
    (1 ≤ (NewPageIterator client page perPage).pagination.Page ∧
      1 ≤ (NewPageIterator client page perPage).pagination.PerPage ∧
      (NewPageIterator client page perPage).pagination.PerPage ≤ 1000) ∧
    ((1 ≤ i.pagination.Page → 1 ≤ (i.Next).1.pagination.Page) ∧
      (i.Next).1.pagination.PerPage = i.pagination.PerPage) ∧
    (i.Reset.pagination.Page = 1 ∧ i.Reset.pagination.PerPage = i.pagination.PerPage) := by
  refine ⟨?_, ⟨?_, ?_⟩, rfl, rfl⟩
  · simp only [NewPageIterator, NewPagination, Pagination.WithPage, Pagination.WithPerPage,
      DefaultPage, DefaultPerPage, MaxPerPage]
    refine ⟨?_, ?_, ?_⟩ <;> split_ifs <;> omega
  · intro hp
    rcases PageIterator.next_pagination_cases i with hcase | hcase <;> rw [hcase]
    · exact hp
    · show 1 ≤ i.pagination.Page + 1
      omega
  · rcases PageIterator.next_pagination_cases i with hcase | hcase <;> rw [hcase]

/-- Helper: for a status ≥ 400, `ParseErrorResponse` always produces an
error, whatever the error-body decode yielded. -/
theorem parseErrorResponse_isSome_of_ge400 (status : Int) (eb : Option ErrorBody)
    (h : 400 ≤ status) : ∃ e, ParseErrorResponse status eb = some e := by
  unfold ParseErrorResponse
  rw [if_neg (by omega : ¬(200 ≤ status ∧ status < 300))]
  cases eb with
  | none => exact ⟨_, rfl⟩
  | some b => exact ⟨_, rfl⟩

/-- C7 counterexample: at status 500 with an undecodable error body, the
fallback error the code builds (`fmt.Errorf`, modelled `statusOnlyError`) is
not a value of the `ClientError` type, contradicting the claim's
"ClientError-kind failure" — though it does carry status 500. -/
theorem malformed_error_body_not_clientError_cex :
    ParseErrorResponse 500 none = some (BunnyError.statusOnlyError 500) ∧
    (ParseErrorResponse 500 none).map BunnyError.isClientError = some false ∧
    (ParseErrorResponse 500 none).bind BunnyError.reportedStatus = some 500 := by
  decide

/-- C7 (amended): for every status ≥ 400 whose body cannot be decoded as an
`ErrorResponse`, parsing returns the generic fallback error carrying just the
status code — a bare formatted error (not a `ClientError` value), which still
reports the status and never surfaces the raw parse failure. -/
theorem malformed_error_body_fallback (status : Int) (h : 400 ≤ status) :
    ParseErrorResponse status none = some (BunnyError.statusOnlyError status) ∧
    (BunnyError.statusOnlyError status).reportedStatus = some status ∧
    (BunnyError.statusOnlyError status).isClientError = false := by
  refine ⟨?_, rfl, rfl⟩
  unfold ParseErrorResponse
  rw [if_neg (by omega : ¬(200 ≤ status ∧ status < 300))]

/-- Witness for C7's amended statement at status 500. -/
theorem malformed_error_body_fallback_witness :
    ParseErrorResponse 500 none = some (BunnyError.statusOnlyError 500) ∧
    (BunnyError.statusOnlyError 500).reportedStatus = some 500 ∧
    (BunnyError.statusOnlyError 500).isClientError = false :=
  malformed_error_body_fallback 500 (by decide)

/-- C8: `ParsePaginatedResponse` ignores the status code and error body
entirely — no 204 and no ≥ 400 short-circuit — while `ParseResponse` performs
both, and the transport step `DoRequest` already pairs every response of
status ≥ 400 with an error before any decode. -/
theorem paginated_decode_no_status_shortcircuit {V : Type} (resp : HttpResponse V)
    (s : Int) (eb : Option ErrorBody) (ht : Bool) :
    ParsePaginatedResponse { resp with StatusCode := s, decodedErrorBody := eb }
      = ParsePaginatedResponse resp ∧
    (resp.StatusCode = 204 → ParseResponse resp ht = Except.ok none) ∧
    (400 ≤ resp.StatusCode → resp.StatusCode ≠ 204 → ht = true →
      ∃ e, ParseResponse resp ht = Except.error e) ∧
    (400 ≤ resp.StatusCode → ∃ e, DoRequest (Except.ok resp) = (some resp, some e)) := by
  refine ⟨rfl, ?_, ?_, ?_⟩
  · intro h204
    unfold ParseResponse
    rw [if_pos h204]
  · intro h400 hne hht
    subst hht
    obtain ⟨e, he⟩ := parseErrorResponse_isSome_of_ge400 resp.StatusCode resp.decodedErrorBody h400
    refine ⟨e, ?_⟩
    unfold ParseResponse
    rw [if_neg hne, if_neg (by decide : ¬(!true) = true), if_pos h400, he]
  · intro h400
    obtain ⟨e, he⟩ := parseErrorResponse_isSome_of_ge400 resp.StatusCode resp.decodedErrorBody h400
    refine ⟨e, ?_⟩
    unfold DoRequest
    dsimp only
    rw [if_pos h400, he]

/-- Witness for C8: a status-500 response decoding to `3` still decodes on the
paginated path even when its status is rewritten to 204, while `ParseResponse`
and `DoRequest` treat the 500 as an error. -/
theorem paginated_decode_no_status_shortcircuit_witness :
    ParsePaginatedResponse { resp500nat with StatusCode := 204, decodedErrorBody := none }
      = ParsePaginatedResponse resp500nat ∧
    (∃ e, ParseResponse resp500nat true = Except.error e) ∧
    (∃ e, DoRequest (Except.ok resp500nat) = (some resp500nat, some e)) := by
  have h := paginated_decode_no_status_shortcircuit resp500nat 204 none true
  exact ⟨h.1, h.2.2.1 (by decide) (by decide) rfl, h.2.2.2 (by decide)⟩

/-- Witness for C10: requesting page 0 at page size 5000 yields the clamped
cursor (1, 1000); one `Next()` on the fresh three-page iterator keeps
`Page ≥ 1` and leaves `PerPage` untouched. -/
theorem iterator_pagination_invariant_witness :
    (1 ≤ (NewPageIterator threePageClient 0 5000).pagination.Page ∧
      1 ≤ (NewPageIterator threePageClient 0 5000).pagination.PerPage ∧
      (NewPageIterator threePageClient 0 5000).pagination.PerPage ≤ 1000) ∧
    1 ≤ (threePageIter.Next).1.pagination.Page ∧
    (threePageIter.Next).1.pagination.PerPage = threePageIter.pagination.PerPage := by
  have h := iterator_pagination_invariant threePageClient 0 5000 threePageIter
  exact ⟨h.1, h.2.1.1 (by decide), h.2.1.2⟩

/-- C9: every successful `NewRequest` sets `Accept: application/json`; sets
`Content-Type: application/json` exactly when a body is present and the
method is POST, PUT or PATCH; attaches the JSON body exactly under that same
condition; sets `AccessKey` to the API key exactly when it is non-empty; and
sets `User-Agent` exactly when it is non-empty. -/
theorem newRequest_headers (method : String) (urlParseOk hasBody bodyEncodeOk newReqOk : Bool)
    (apiKey userAgent : String) (req : Request)
    (h : NewRequest method urlParseOk hasBody bodyEncodeOk newReqOk apiKey userAgent
      = Except.ok req) :
    req.accept = some "application/json" ∧
    (req.contentType = some "application/json" ↔
      (hasBody = true ∧ (method = "POST" ∨ method = "PUT" ∨ method = "PATCH"))) ∧
    (req.hasJsonBody = true ↔
      (hasBody = true ∧ (method = "POST" ∨ method = "PUT" ∨ method = "PATCH"))) ∧
    (req.contentType = some "application/json" ∨ req.contentType = none) ∧
    (apiKey ≠ "" → req.accessKey = some apiKey) ∧
    (apiKey = "" → req.accessKey = none) ∧
    (userAgent ≠ "" → req.userAgent = some userAgent) ∧
    (userAgent = "" → req.userAgent = none) := by
  unfold NewRequest at h
  cases urlParseOk with
  | false => simp at h
  | true =>
    simp only [Bool.not_true, Bool.false_eq_true, if_false] at h
    cases hab : hasBody && (method == "POST" || method == "PUT" || method == "PATCH") with
    | true =>
      rw [hab] at h
      cases bodyEncodeOk with
      | false => simp at h
      | true =>
        cases newReqOk with
        | false => simp at h
        | true =>
          simp only [Bool.not_true, Bool.and_false, Bool.false_eq_true, if_false,
            Except.ok.injEq] at h
          subst h
          have hcond : hasBody = true ∧ (method = "POST" ∨ method = "PUT" ∨ method = "PATCH") := by
            simp only [Bool.and_eq_true, Bool.or_eq_true, beq_iff_eq] at hab
            exact ⟨hab.1, by tauto⟩
          refine ⟨rfl, iff_of_true rfl hcond, iff_of_true rfl hcond, ?_, ?_, ?_, ?_, ?_⟩
          · left; rfl
          · intro hk
            simp [hk]
          · intro hk
            simp [hk]
          · intro hu
            simp [hu]
          · intro hu
            simp [hu]
    | false =>
      rw [hab] at h
      cases newReqOk with
      | false => simp at h
      | true =>
        simp only [Bool.false_and, Bool.false_eq_true, if_false, Bool.not_true,
          Except.ok.injEq] at h
        subst h
        have hcond : ¬(hasBody = true ∧ (method = "POST" ∨ method = "PUT" ∨ method = "PATCH")) := by
          rintro ⟨hb, hm⟩
          have habt : (hasBody && (method == "POST" || method == "PUT" || method == "PATCH"))
              = true := by
            rw [hb]
            rcases hm with h1 | h1 | h1 <;> rw [h1] <;> rfl
          rw [hab] at habt
          exact absurd habt (by simp)
        refine ⟨rfl, iff_of_false (by simp) hcond, iff_of_false (by simp) hcond,
          ?_, ?_, ?_, ?_, ?_⟩
        · right; rfl
        · intro hk
          simp [hk]
        · intro hk
          simp [hk]
        · intro hu
          simp [hu]
        · intro hu
          simp [hu]

/-- Witness for C9: a POST with body, key `"key1"` and agent `"agent1"` gets
all four headers with those values and an attached body, while a GET handed
the same body gets neither a `Content-Type` header nor an attached body. -/
theorem newRequest_headers_witness :
    (reqPost.accept = some "application/json" ∧
      reqPost.contentType = some "application/json" ∧
      reqPost.hasJsonBody = true ∧
      reqPost.accessKey = some "key1" ∧
      reqPost.userAgent = some "agent1") ∧
    (reqGet.contentType = none ∧ reqGet.hasJsonBody = false) := by
  have hp := newRequest_headers "POST" true true true true "key1" "agent1" reqPost (by rfl)
  have hg := newRequest_headers "GET" true true true true "key1" "agent1" reqGet (by rfl)
  refine ⟨⟨hp.1, hp.2.1.mpr ⟨rfl, Or.inl rfl⟩, hp.2.2.1.mpr ⟨rfl, Or.inl rfl⟩,
    hp.2.2.2.2.1 (by decide), hp.2.2.2.2.2.2.1 (by decide)⟩, ?_, ?_⟩
  · rcases hg.2.2.2.1 with hc | hc
    · exact absurd (hg.2.1.mp hc) (by decide)
    · exact hc
  · cases hb : reqGet.hasJsonBody with
    | false => rfl
    | true => exact absurd (hg.2.2.1.mp hb) (by decide)

end BunnyNet
